import Mathlib

/-!
Shallow embedding of the Boghche storefront handlers:
the staff order panel (src/fardel/apps/ecommerce/order/panel.py) and the
auth REST API (src/web/core/auth/views.py), over an explicit relational
state.  The ORM session is modelled by explicit state passing on a `DB`
record; SQL queries become list operations; handlers become pure
functions returning a response together with the post-commit state.
Model classes (User, Order, RevokedToken) and the BaseResource helpers
live in repository modules that are not part of the provided sources;
those definitions are modelled from the spec and marked as such.
-/

/-- A user row.  Modelled from the spec: the User model (core/auth/models,
not among the provided sources) is an identity record with email, a
separately hashed password, first/last name, and admin/staff flags used
by the login access summary.  `id` is the autoincrement primary key. -/
structure User where
  id : Nat
  email : String
  password : String
  first_name : Option String
  last_name : Option String
  is_admin : Bool
  is_staff : Bool
deriving DecidableEq, Repr

/-- An order row: belongs to one user by `user_id`, has a `status` string
and a `create_time` used for the default ordering.  `id` is the primary
key.  (Order model from the ecommerce app; fields as used by panel.py
and described in the spec data model.) -/
structure Order where
  id : Nat
  user_id : Nat
  status : String
  create_time : Nat
deriving DecidableEq, Repr

/-- Access summary object (views.py docstring): present at login when the
user is a staff member or admin.  The group payload is not needed by any
claim and is omitted from the model. -/
structure Access where
  is_admin : Bool
  is_staff : Bool
deriving DecidableEq, Repr

/-- The relational store: user rows, order rows, and the revoked-token
table holding the jti strings recorded at logout. -/
structure DB where
  users : List User
  orders : List Order
  revoked : List String
deriving DecidableEq, Repr

/-- The JSON body of an auth request, with the four fields the handlers
read.  A missing key is `none`; Python truthiness makes the empty string
falsy, see `truthy`. -/
structure JsonBody where
  email : Option String
  password : Option String
  first_name : Option String
  last_name : Option String
deriving DecidableEq, Repr

/-- Python truthiness of an optional string: absent and empty are falsy. -/
def truthy : Option String → Bool
  | none => false
  | some s => !s.isEmpty

/-- A JSON API response: message, HTTP status (Flask-RESTful defaults to
200 when a bare dict is returned), and the optional token / access
payload fields. -/
structure ApiResponse where
  message : String
  status : Nat := 200
  access_token : Option String := none
  refresh_token : Option String := none
  access : Option Access := none
deriving DecidableEq, Repr

/-- Modelled from the spec: BaseResource.check_data (web/core/base, not
among the provided sources).  Register and login call it with the key
lists ['password', 'email'] and ['email', 'password']; the spec says both
endpoints require email and password and that a missing required field
produces the generic invalid-form failure, so check_data is false when
the body is absent or either required key is missing. -/
def check_data (data : Option JsonBody) : Bool :=
  match data with
  | none => false
  | some d => d.password.isSome && d.email.isSome

/-- BaseResource.bad_request, per the docstring in views.py: status 400
with the fixed message. -/
def bad_request : ApiResponse :=
  { message := "Unvalid form submitted", status := 400 }

/-- Modelled from the spec: the User model stores the password separately
hashed; assigning the password attribute stores the hash of the given
plaintext. -/
def hash_password (p : String) : String := "pbkdf2." ++ p

/-- Modelled from the spec: User.check_password compares the stored hash
against the hash of the supplied plaintext. -/
def User.check_password (u : User) (p : String) : Bool :=
  u.password == hash_password p

/-- Modelled from the spec: access_dict returns the access summary when
the user is a staff member or admin, and nothing otherwise (views.py
docstring: at login, if the user is staffmember or admin we have such an
object). -/
def User.access_dict (u : User) : Option Access :=
  if u.is_admin || u.is_staff then some { is_admin := u.is_admin, is_staff := u.is_staff }
  else none

/-- flask_jwt_extended.create_access_token, modelled as minting a token
string for the identity. -/
def create_access_token (identity : String) : String :=
  "access-token." ++ identity

/-- flask_jwt_extended.create_refresh_token, modelled as minting a token
string for the identity. -/
def create_refresh_token (identity : String) : String :=
  "refresh-token." ++ identity

/-- The next autoincrement primary key for the users table. -/
def nextUserId (db : DB) : Nat :=
  db.users.foldl (fun m u => max m (u.id + 1)) 1

/-- RegistrationApi.already_exists: the conflict response. -/
def already_exists : ApiResponse :=
  { message := "A user with this email already exists.", status := 409 }

/-- RegistrationApi.post.  check_data guarantees that both required keys
are present on the success path, so the dictionary accesses
data['password'] and data['email'] are total there. -/
def RegistrationApi.post (db : DB) (data? : Option JsonBody) : ApiResponse × DB :=
  if check_data data? = false then (bad_request, db)
  else
    match data? with
    | none => (bad_request, db)
    | some data =>
      let password := data.password.getD ""
      let email := data.email.getD ""
      if (db.users.find? (fun u => u.email == email)).isSome then
        (already_exists, db)
      else
        let u : User :=
          { id := nextUserId db, email := email, password := hash_password password,
            first_name := data.first_name, last_name := data.last_name,
            is_admin := false, is_staff := false }
        ({ message := "Successfully registered",
           access_token := some (create_access_token u.email),
           refresh_token := some (create_refresh_token u.email) },
         { db with users := db.users ++ [u] })

/-- LoginApi.post.  The query .scalar() returns the matching row or none;
email is the lookup key. -/
def LoginApi.post (db : DB) (data? : Option JsonBody) : ApiResponse × DB :=
  if check_data data? = false then (bad_request, db)
  else
    match data? with
    | none => (bad_request, db)
    | some data =>
      let password := data.password.getD ""
      let email := data.email.getD ""
      match db.users.find? (fun u => u.email == email) with
      | some u =>
        if u.check_password password then
          ({ message := "Successfully logined",
             access_token := some (create_access_token u.email),
             refresh_token := some (create_refresh_token u.email),
             access := u.access_dict }, db)
        else
          ({ message := "Username or password is not correct", status := 401 }, db)
      | none =>
        ({ message := "Username or password is not correct", status := 401 }, db)

/-- Modelled from the spec: RevokedToken (core/auth/models, not among the
provided sources) records a token identifier once the token is logged
out; .add persists the row.  The table is append-only. -/
def RevokedToken.add (db : DB) (jti : String) : DB :=
  { db with revoked := db.revoked ++ [jti] }

/-- Modelled from the spec: the token-verification layer (the JWT
blacklist loader; JWT_BLACKLIST_ENABLED is set in config.py for both
access and refresh tokens) rejects a token exactly when a RevokedToken
row with its jti exists. -/
def is_jti_blacklisted (db : DB) (jti : String) : Bool :=
  db.revoked.contains jti

/-- LogoutApi.post: reads the jti of the presented access token and
records it as revoked. -/
def LogoutApi.post (db : DB) (jti : String) : ApiResponse × DB :=
  ({ message := "Access token has been revoked" }, RevokedToken.add db jti)

/-- LogoutRefreshApi.post: reads the jti of the presented refresh token
and records it as revoked. -/
def LogoutRefreshApi.post (db : DB) (jti : String) : ApiResponse × DB :=
  ({ message := "Refresh token has been revoked" }, RevokedToken.add db jti)

/-- RefreshTokenApi.post: issues a new access token for the identity of
the presented refresh token; no state change.  The source returns only
the access_token field. -/
def RefreshTokenApi.post (db : DB) (identity : String) : ApiResponse × DB :=
  ({ message := "", access_token := some (create_access_token identity) }, db)

/-- The field-update loop of ProfileApi.put on the current user: for each
of the four fields, if the value in the body is truthy the attribute is
assigned (assigning password stores its hash, per the modelled password
setter). -/
def profile_update_user (u : User) (d : JsonBody) : User :=
  let u1 := match d.first_name with
    | some s => if s.isEmpty then u else { u with first_name := some s }
    | none => u
  let u2 := match d.last_name with
    | some s => if s.isEmpty then u1 else { u1 with last_name := some s }
    | none => u1
  let u3 := match d.email with
    | some s => if s.isEmpty then u2 else { u2 with email := s }
    | none => u2
  match d.password with
  | some s => if s.isEmpty then u3 else { u3 with password := hash_password s }
  | none => u3

/-- ProfileApi.put: updates the current user's row (keyed by its primary
key) with the truthy fields of the body and commits.  The user payload of
the response is not modelled. -/
def ProfileApi.put (db : DB) (uid : Nat) (d : JsonBody) : ApiResponse × DB :=
  ({ message := "Profile successfully updated" },
   { db with users := db.users.map (fun v => if v.id == uid then profile_update_user v d else v) })

/-! ## Order panel (src/fardel/apps/ecommerce/order/panel.py) -/

/-- The outcome of a panel page: either a rendered template (the listing
with its paginated orders, or the detail page with the order and its
owning user), a redirect to a named endpoint, or an aborted 404 from
first_or_404. -/
inductive PanelResult where
  | renderList (orders : List Order)
  | renderInfo (order : Order) (user : User)
  | redirect (endpoint : String)
  | notFound
deriving DecidableEq, Repr

/-- Order.query.order_by(Order.create_time.asc()): a stable insertion
sort by ascending create_time. -/
def insertByTime (o : Order) : List Order → List Order
  | [] => [o]
  | x :: xs => if o.create_time < x.create_time then o :: x :: xs else x :: insertByTime o xs

def sortByCreateTime (l : List Order) : List Order :=
  l.foldr insertByTime []

/-- math.ceil(a / b) on integers for a nonzero divisor, as computed by
Python true division followed by ceiling. -/
def pyCeilDiv (a b : Int) : Int :=
  -((-a).ediv b)

/-- query.paginate(page, per_page, error_out=False).items: with error_out
off, a page below 1 falls back to 1 and a negative per_page falls back to
20, then the items are the window of the ordered rows. -/
def paginateItems (l : List Order) (page per_page : Int) : List Order :=
  let page := if page < 1 then 1 else page
  let per_page := if per_page < 0 then 20 else per_page
  (l.drop ((page - 1) * per_page).toNat).take per_page.toNat

/-- orders_list: query parameters page and per_page default to 1 and 20;
the page count math.ceil(query.count() / per_page) is computed before
pagination and raises ZeroDivisionError when per_page is 0 (modelled by
the error branch of Except); on success the listing template is rendered
with the paginated items. -/
def orders_list (db : DB) (page? per_page? : Option Int) : Except String PanelResult :=
  let page := page?.getD 1
  let per_page := per_page?.getD 20
  if per_page == 0 then Except.error "ZeroDivisionError"
  else
    let query := sortByCreateTime db.orders
    let _pages := pyCeilDiv db.orders.length per_page
    Except.ok (PanelResult.renderList (paginateItems query page per_page))

/-- orders_info: fetch the order by id or 404, then its owning user or
404, then render the detail page with both. -/
def orders_info (db : DB) (order_id : Nat) : PanelResult :=
  match db.orders.find? (fun o => o.id == order_id) with
  | none => PanelResult.notFound
  | some order =>
    match db.users.find? (fun u => u.id == order.user_id) with
    | none => PanelResult.notFound
    | some user => PanelResult.renderInfo order user

/-- The status flip of confirm_order. -/
def toggle_status (s : String) : String :=
  if s = "Unfulfiled" then "Fulfiled"
  else if s = "Fulfiled" then "Unfulfiled"
  else s

/-- The row-level effect of confirm_order on the committed table: the row
with the fetched primary key gets the flipped status, every other row is
untouched. -/
def toggle_row (order_id : Nat) (o : Order) : Order :=
  if o.id == order_id then { o with status := toggle_status o.status } else o

/-- confirm_order: fetch the order by id or 404, flip its status, commit,
and redirect to the listing.  id is the primary key, so updating the
fetched row updates exactly the rows carrying that id. -/
def confirm_order (db : DB) (order_id : Nat) : PanelResult × DB :=
  match db.orders.find? (fun o => o.id == order_id) with
  | none => (PanelResult.notFound, db)
  | some _ =>
    (PanelResult.redirect "ecommerce_panel.orders_list",
     { db with orders := db.orders.map (toggle_row order_id) })

/-- order_delete: fetch the order by id or 404, delete the row, commit,
and redirect to the listing.  id is the primary key, so deleting the
fetched row removes exactly the rows carrying that id. -/
def order_delete (db : DB) (order_id : Nat) : PanelResult × DB :=
  match db.orders.find? (fun o => o.id == order_id) with
  | none => (PanelResult.notFound, db)
  | some _ =>
    (PanelResult.redirect "ecommerce_panel.orders_list",
     { db with orders := db.orders.filter (fun o => !(o.id == order_id)) })

/-! ## Requests as state transitions -/

/-- One inbound request to any of the modelled endpoints, carrying the
data the handler reads (body, token jti or identity, path id, query
parameters). -/
inductive Request where
  | register (d : Option JsonBody)
  | login (d : Option JsonBody)
  | logoutAccess (jti : String)
  | logoutRefresh (jti : String)
  | refreshToken (identity : String)
  | profileRead (uid : Nat)
  | profileUpdate (uid : Nat) (d : JsonBody)
  | ordersList (page? per_page? : Option Int)
  | ordersInfo (oid : Nat)
  | confirmOrder (oid : Nat)
  | orderDelete (oid : Nat)

/-- The state transition of one request: the post-commit database.
Profile read, the listing and the detail page are read-only. -/
def step (db : DB) : Request → DB
  | Request.register d => (RegistrationApi.post db d).2
  | Request.login d => (LoginApi.post db d).2
  | Request.logoutAccess jti => (LogoutApi.post db jti).2
  | Request.logoutRefresh jti => (LogoutRefreshApi.post db jti).2
  | Request.refreshToken identity => (RefreshTokenApi.post db identity).2
  | Request.profileRead _ => db
  | Request.profileUpdate uid d => (ProfileApi.put db uid d).2
  | Request.ordersList _ _ => db
  | Request.ordersInfo _ => db
  | Request.confirmOrder oid => (confirm_order db oid).2
  | Request.orderDelete oid => (order_delete db oid).2

/-- The state after a sequence of requests. -/
def run (db : DB) (reqs : List Request) : DB :=
  reqs.foldl step db

/-! ## Concrete rows used by the closed witness statements -/

/-- A staff user on record. -/
def aliceUser : User :=
  { id := 1, email := "alice@example.com", password := hash_password "alice-secret",
    first_name := some "Alice", last_name := none, is_admin := false, is_staff := true }

/-- A second user on record. -/
def bobUser : User :=
  { id := 2, email := "bob@example.com", password := hash_password "bob-secret",
    first_name := none, last_name := none, is_admin := false, is_staff := false }

/-- An order owned by the first user. -/
def aliceOrder : Order :=
  { id := 1, user_id := 1, status := "Unfulfiled", create_time := 10 }

/-- A store with both users and one order. -/
def sampleDB : DB :=
  { users := [aliceUser, bobUser], orders := [aliceOrder], revoked := [] }

/-! ## Helper lemmas -/

theorem toggle_toggle (s : String) : toggle_status (toggle_status s) = s := by
  unfold toggle_status
  by_cases h1 : s = "Unfulfiled"
  · simp [h1]
  · by_cases h2 : s = "Fulfiled" <;> simp [h1, h2]

theorem toggle_row_id (order_id : Nat) (o : Order) : (toggle_row order_id o).id = o.id := by
  unfold toggle_row
  split <;> rfl

theorem toggle_row_invol (order_id : Nat) (o : Order) :
    toggle_row order_id (toggle_row order_id o) = o := by
  unfold toggle_row
  by_cases h : (o.id == order_id) = true
  · simp [h, toggle_toggle]
  · simp [h]

/-- Claim C4: applying the confirm_order status toggle twice restores the
whole store to its original state, and the underlying status flip is an
involution on every status string: Unfulfiled and Fulfiled are swapped
and any other value is left unchanged, twice over. -/
theorem confirm_order_toggle_involution (db : DB) (order_id : Nat) (s : String) :
    (confirm_order (confirm_order db order_id).2 order_id).2 = db ∧
    toggle_status (toggle_status s) = s := by
  refine ⟨?_, toggle_toggle s⟩
  cases h : db.orders.find? (fun o => o.id == order_id) with
  | none =>
    have h1 : (confirm_order db order_id).2 = db := by simp [confirm_order, h]
    rw [h1]
    simp [confirm_order, h]
  | some o =>
    have h1 : (confirm_order db order_id).2 = { db with orders := db.orders.map (toggle_row order_id) } := by
      simp [confirm_order, h]
    rw [h1]
    have hcomp : ((fun o : Order => o.id == order_id) ∘ toggle_row order_id) =
        (fun o : Order => o.id == order_id) := by
      funext x
      simp [Function.comp, toggle_row_id]
    have hfind : (db.orders.map (toggle_row order_id)).find? (fun o => o.id == order_id) =
        some (toggle_row order_id o) := by
      rw [List.find?_map, hcomp, h]
      rfl
    have hmap : (db.orders.map (toggle_row order_id)).map (toggle_row order_id) = db.orders := by
      rw [List.map_map]
      have : (toggle_row order_id ∘ toggle_row order_id) = id :=
        funext (fun o => toggle_row_invol order_id o)
      rw [this, List.map_id]
    simp [confirm_order, hfind, hmap]

/-- Claim C7: after order_delete removes an order id, the detail lookup
for that id aborts with not-found; and orders_info renders the order with
its owning user exactly when the order row and its user row both exist,
aborting with not-found otherwise. -/
theorem order_delete_then_info_not_found (db : DB) (order_id : Nat) :
    orders_info (order_delete db order_id).2 order_id = PanelResult.notFound ∧
    (orders_info db order_id ≠ PanelResult.notFound ↔
      ∃ o, db.orders.find? (fun x => x.id == order_id) = some o ∧
        (db.users.find? (fun u => u.id == o.user_id)).isSome) := by
  constructor
  · cases h : db.orders.find? (fun o => o.id == order_id) with
    | none =>
      have h1 : (order_delete db order_id).2 = db := by simp [order_delete, h]
      rw [h1]
      simp [orders_info, h]
    | some o =>
      have h1 : (order_delete db order_id).2 =
          { db with orders := db.orders.filter (fun o => !(o.id == order_id)) } := by
        simp [order_delete, h]
      rw [h1]
      have h2 : (db.orders.filter (fun o => !(o.id == order_id))).find?
          (fun o => o.id == order_id) = none := by
        apply List.find?_eq_none.mpr
        intro x hx
        have hq := (List.mem_filter.mp hx).2
        simp at hq
        simp [hq]
      simp [orders_info, h2]
  · cases h : db.orders.find? (fun x => x.id == order_id) with
    | none => simp [orders_info, h]
    | some o =>
      cases h2 : db.users.find? (fun u => u.id == o.user_id) with
      | none =>
        simp [orders_info, h, h2]
        intro x hx
        have := List.find?_eq_none.mp h2 x hx
        simpa using this
      | some u =>
        simp [orders_info, h, h2]
        refine ⟨u, List.mem_of_find?_eq_some h2, ?_⟩
        have := List.find?_some h2
        simpa using this

/-- Whether a panel outcome is a redirect. -/
def panel_redirects : Except String PanelResult → Bool
  | Except.ok (PanelResult.redirect _) => true
  | _ => false

/-- Claim C8, counterexample: on a concrete store, the listing operation
returns a rendered listing page, not a redirect, so it is not the case
that every panel operation except the detail view redirects back to the
listing. -/
theorem orders_list_renders_counterexample :
    panel_redirects (orders_list sampleDB none none) = false ∧
    orders_list sampleDB none none = Except.ok (PanelResult.renderList [aliceOrder]) := by
  constructor <;> rfl

/-- Claim C8, amended: the status toggle and the delete operation redirect
back to the order listing (whenever the addressed order exists), while the
listing operation itself never redirects: it renders the listing page. -/
theorem panel_redirects_amended (db : DB) (order_id : Nat) (o : Order)
    (h : db.orders.find? (fun x => x.id == order_id) = some o)
    (page? per_page? : Option Int) :
    (confirm_order db order_id).1 = PanelResult.redirect "ecommerce_panel.orders_list" ∧
    (order_delete db order_id).1 = PanelResult.redirect "ecommerce_panel.orders_list" ∧
    panel_redirects (orders_list db page? per_page?) = false := by
  refine ⟨by simp [confirm_order, h], by simp [order_delete, h], ?_⟩
  unfold orders_list
  by_cases hz : ((per_page?.getD 20) == 0) = true
  · simp [hz, panel_redirects]
  · simp [hz, panel_redirects]

/-- Closed witness for the amended C8 statement at the sample store. -/
theorem panel_redirects_amended_witness :
    (confirm_order sampleDB 1).1 = PanelResult.redirect "ecommerce_panel.orders_list" ∧
    (order_delete sampleDB 1).1 = PanelResult.redirect "ecommerce_panel.orders_list" ∧
    panel_redirects (orders_list sampleDB none none) = false :=
  panel_redirects_amended sampleDB 1 aliceOrder (by decide) none none

/-- Claim C9: the page-count computation of orders_list divides by the
per_page query parameter unguarded, so a request with per_page equal to 0
reaches a ZeroDivisionError, while any nonzero per_page makes the handler
total. -/
theorem orders_list_division_by_zero (db : DB) (page? : Option Int) (pp : Int)
    (h : pp ≠ 0) :
    orders_list db page? (some 0) = Except.error "ZeroDivisionError" ∧
    (orders_list db page? (some pp)).isOk = true ∧
    (orders_list db page? none).isOk = true := by
  refine ⟨by simp [orders_list], ?_, by simp [orders_list, Except.isOk, Except.toBool]⟩
  simp [orders_list, h, Except.isOk, Except.toBool]

/-- Closed witness for C9 at the sample store: per_page 0 raises, the
default and an explicit nonzero per_page succeed. -/
theorem orders_list_division_by_zero_witness :
    orders_list sampleDB none (some 0) = Except.error "ZeroDivisionError" ∧
    (orders_list sampleDB none (some 20)).isOk = true ∧
    (orders_list sampleDB none none).isOk = true :=
  orders_list_division_by_zero sampleDB none 20 (by decide)

/-- Registration with a well-formed body whose email is already on record
returns the conflict response and leaves the store unchanged. -/
theorem registration_conflict_aux (db : DB) (d : JsonBody) (e p : String)
    (he : d.email = some e) (hp : d.password = some p)
    (hex : ∃ u ∈ db.users, u.email = e) :
    RegistrationApi.post db (some d) = (already_exists, db) := by
  obtain ⟨u, hu, hue⟩ := hex
  have hf : (db.users.find? (fun v => v.email == e)).isSome = true := by
    apply List.find?_isSome.mpr
    exact ⟨u, hu, by simp [hue]⟩
  simp [RegistrationApi.post, check_data, he, hp, hf]

/-- Registration with a well-formed body always leaves some user carrying
the submitted email on record: either the conflict branch found one, or
the success branch inserted the new row. -/
theorem registration_adds_email (db : DB) (d : JsonBody) (e p : String)
    (he : d.email = some e) (hp : d.password = some p) :
    ∃ u ∈ (RegistrationApi.post db (some d)).2.users, u.email = e := by
  by_cases hc : (db.users.find? (fun v => v.email == e)).isSome = true
  · obtain ⟨u, hu, hue⟩ := List.find?_isSome.mp hc
    have h1 : (RegistrationApi.post db (some d)).2 = db := by
      simp [RegistrationApi.post, check_data, he, hp, hc]
    rw [h1]
    exact ⟨u, hu, by simpa using hue⟩
  · have hc' : (db.users.find? (fun v => v.email == e)).isSome = false := by
      simpa using hc
    have h1 : (RegistrationApi.post db (some d)).2.users =
        db.users ++ [{ id := nextUserId db, email := e, password := hash_password p,
                       first_name := d.first_name, last_name := d.last_name,
                       is_admin := false, is_staff := false }] := by
      simp [RegistrationApi.post, check_data, he, hp, hc']
    rw [h1]
    refine ⟨_, List.mem_append_right db.users (List.mem_singleton.mpr rfl), rfl⟩

/-- Claim C1: a registration request carrying email and password whose
email is already persisted gets the 409 conflict response and adds no
row; and for any starting store, a second registration with the same
well-formed body always gets the conflict response. -/
theorem registration_duplicate_email_conflict (db db0 : DB) (d : JsonBody) (e p : String)
    (he : d.email = some e) (hp : d.password = some p)
    (hex : ∃ u ∈ db.users, u.email = e) :
    RegistrationApi.post db (some d) = (already_exists, db) ∧
    (RegistrationApi.post (RegistrationApi.post db0 (some d)).2 (some d)).1 = already_exists := by
  refine ⟨registration_conflict_aux db d e p he hp hex, ?_⟩
  obtain ⟨u, hu, hue⟩ := registration_adds_email db0 d e p he hp
  rw [registration_conflict_aux _ d e p he hp ⟨u, hu, hue⟩]

/-- Closed witness for C1: registering the sample body against the store
that already holds its email yields the conflict pair, and the second of
two registrations against the empty store yields the conflict response. -/
theorem registration_duplicate_email_conflict_witness :
    RegistrationApi.post sampleDB
        (some { email := some "alice@example.com", password := some "pw1",
                first_name := none, last_name := none }) = (already_exists, sampleDB) ∧
    (RegistrationApi.post
        (RegistrationApi.post { users := [], orders := [], revoked := [] }
          (some { email := some "alice@example.com", password := some "pw1",
                  first_name := none, last_name := none })).2
        (some { email := some "alice@example.com", password := some "pw1",
                first_name := none, last_name := none })).1 = already_exists :=
  registration_duplicate_email_conflict sampleDB { users := [], orders := [], revoked := [] }
    { email := some "alice@example.com", password := some "pw1",
      first_name := none, last_name := none }
    "alice@example.com" "pw1" rfl rfl ⟨aliceUser, by decide, rfl⟩

/-- Claim C3: a login request carrying email and password for which no
stored user matches the email, or for which every matching user fails the
password check, gets the fixed 401 response and changes nothing. -/
theorem login_bad_credentials_401 (db : DB) (d : JsonBody) (e p : String)
    (he : d.email = some e) (hp : d.password = some p)
    (hbad : ∀ u ∈ db.users, u.email = e → u.check_password p = false) :
    LoginApi.post db (some d) =
      ({ message := "Username or password is not correct", status := 401 }, db) := by
  cases hf : db.users.find? (fun u => u.email == e) with
  | none => simp [LoginApi.post, check_data, he, hp, hf]
  | some u =>
    have hmem := List.mem_of_find?_eq_some hf
    have hue : u.email = e := by simpa using List.find?_some hf
    have hcp : u.check_password p = false := hbad u hmem hue
    simp [LoginApi.post, check_data, he, hp, hf, hcp]

/-- Closed witness for C3: the sample user exists with this email, but the
wrong password yields the fixed 401 response. -/
theorem login_bad_credentials_401_witness :
    LoginApi.post sampleDB
        (some { email := some "alice@example.com", password := some "wrong-password",
                first_name := none, last_name := none }) =
      ({ message := "Username or password is not correct", status := 401 }, sampleDB) :=
  login_bad_credentials_401 sampleDB
    { email := some "alice@example.com", password := some "wrong-password",
      first_name := none, last_name := none }
    "alice@example.com" "wrong-password" rfl rfl (by decide)

/-- Claim C6: a register or login request whose body fails the required
field check (absent body, or missing email or password) gets the generic
invalid-form 400 response from either endpoint, and the store is left
unchanged. -/
theorem missing_fields_invalid_form (db : DB) (d? : Option JsonBody)
    (h : check_data d? = false) :
    RegistrationApi.post db d? = (bad_request, db) ∧
    LoginApi.post db d? = (bad_request, db) := by
  constructor
  · simp [RegistrationApi.post, h]
  · simp [LoginApi.post, h]

/-- Closed witness for C6: a body missing the password field is rejected
by both endpoints with the invalid-form response, leaving the store as it
was. -/
theorem missing_fields_invalid_form_witness :
    RegistrationApi.post sampleDB
        (some { email := some "carol@example.com", password := none,
                first_name := none, last_name := none }) = (bad_request, sampleDB) ∧
    LoginApi.post sampleDB
        (some { email := some "carol@example.com", password := none,
                first_name := none, last_name := none }) = (bad_request, sampleDB) :=
  missing_fields_invalid_form sampleDB
    (some { email := some "carol@example.com", password := none,
            first_name := none, last_name := none }) rfl

/-- Claim C5: the profile update writes exactly the fields of
first_name, last_name, email, password that are present and truthy in the
body (password through the hashing setter), and every other stored field
of the user, including id and the admin/staff flags, keeps its prior
value. -/
theorem profile_update_exact_fields (u : User) (d : JsonBody) :
    (profile_update_user u d).id = u.id ∧
    (profile_update_user u d).is_admin = u.is_admin ∧
    (profile_update_user u d).is_staff = u.is_staff ∧
    (profile_update_user u d).first_name =
      (if truthy d.first_name then d.first_name else u.first_name) ∧
    (profile_update_user u d).last_name =
      (if truthy d.last_name then d.last_name else u.last_name) ∧
    (profile_update_user u d).email =
      (if truthy d.email then d.email.getD u.email else u.email) ∧
    (profile_update_user u d).password =
      (if truthy d.password then hash_password (d.password.getD "") else u.password) := by
  obtain ⟨de, dp, df, dl⟩ := d
  unfold profile_update_user truthy
  cases df <;> cases dl <;> cases de <;> cases dp <;>
    simp <;> split_ifs <;> simp_all

/-- Claim C10: the profile update assigns a truthy email from the body to
the current user's row and commits with no uniqueness lookup: the updated
row carries the submitted email, and every other row, including any row
already holding that email, is kept as it was, so the duplicate-email
check of registration is not preserved here. -/
theorem profile_update_email_unchecked (db : DB) (u : User) (d : JsonBody) (s : String)
    (hu : u ∈ db.users) (he : d.email = some s) (hs : s.isEmpty = false) :
    profile_update_user u d ∈ (ProfileApi.put db u.id d).2.users ∧
    (profile_update_user u d).email = s ∧
    ∀ w ∈ db.users, w.id ≠ u.id → w ∈ (ProfileApi.put db u.id d).2.users := by
  refine ⟨?_, ?_, ?_⟩
  · have himg := List.mem_map_of_mem
      (fun v => if v.id == u.id then profile_update_user v d else v) hu
    simpa [ProfileApi.put] using himg
  · obtain ⟨de, dp, df, dl⟩ := d
    obtain rfl : de = some s := by simpa using he
    unfold profile_update_user
    cases df <;> cases dl <;> cases dp <;> simp [hs] <;> split_ifs <;> rfl
  · intro w hw hne
    have himg := List.mem_map_of_mem
      (fun v => if v.id == u.id then profile_update_user v d else v) hw
    have hid : (w.id == u.id) = false := by simpa using hne
    simpa [ProfileApi.put, hid] using himg

/-- Closed witness for C10: the first sample user takes the second sample
user's email; the updated row and the untouched second row then share the
email, breaching the uniqueness that registration enforces. -/
theorem profile_update_email_unchecked_witness :
    profile_update_user aliceUser
        { email := some "bob@example.com", password := none,
          first_name := none, last_name := none } ∈
      (ProfileApi.put sampleDB aliceUser.id
        { email := some "bob@example.com", password := none,
          first_name := none, last_name := none }).2.users ∧
    (profile_update_user aliceUser
        { email := some "bob@example.com", password := none,
          first_name := none, last_name := none }).email = "bob@example.com" ∧
    ∀ w ∈ sampleDB.users, w.id ≠ aliceUser.id →
      w ∈ (ProfileApi.put sampleDB aliceUser.id
        { email := some "bob@example.com", password := none,
          first_name := none, last_name := none }).2.users :=
  profile_update_email_unchecked sampleDB aliceUser
    { email := some "bob@example.com", password := none,
      first_name := none, last_name := none }
    "bob@example.com" (by decide) rfl rfl

/-- Registration never touches the revoked-token table. -/
theorem registration_revoked_eq (db : DB) (d? : Option JsonBody) :
    ((RegistrationApi.post db d?).2).revoked = db.revoked := by
  by_cases hc : check_data d? = false
  · simp [RegistrationApi.post, hc]
  · cases d? with
    | none => simp [RegistrationApi.post]
    | some d =>
      rw [RegistrationApi.post, if_neg hc]
      dsimp only
      split <;> rfl

/-- Login never changes the store. -/
theorem login_state_eq (db : DB) (d? : Option JsonBody) :
    (LoginApi.post db d?).2 = db := by
  by_cases hc : check_data d? = false
  · simp [LoginApi.post, hc]
  · cases d? with
    | none => simp [LoginApi.post]
    | some d =>
      rw [LoginApi.post, if_neg hc]
      dsimp only
      split
      · split <;> rfl
      · rfl

/-- The status toggle never touches the revoked-token table. -/
theorem confirm_order_revoked_eq (db : DB) (oid : Nat) :
    ((confirm_order db oid).2).revoked = db.revoked := by
  unfold confirm_order
  split <;> rfl

/-- Order deletion never touches the revoked-token table. -/
theorem order_delete_revoked_eq (db : DB) (oid : Nat) :
    ((order_delete db oid).2).revoked = db.revoked := by
  unfold order_delete
  split <;> rfl

/-- Every modelled request preserves membership in the revoked-token
table: the table is append-only. -/
theorem step_preserves_revoked (db : DB) (r : Request) (jti : String)
    (h : jti ∈ db.revoked) : jti ∈ (step db r).revoked := by
  cases r with
  | register d => rw [step, registration_revoked_eq]; exact h
  | login d => rw [step, login_state_eq]; exact h
  | logoutAccess j =>
    rw [step]
    exact List.mem_append_left _ h
  | logoutRefresh j =>
    rw [step]
    exact List.mem_append_left _ h
  | refreshToken i => exact h
  | profileRead uid => exact h
  | profileUpdate uid d => exact h
  | ordersList p pp => exact h
  | ordersInfo oid => exact h
  | confirmOrder oid => rw [step, confirm_order_revoked_eq]; exact h
  | orderDelete oid => rw [step, order_delete_revoked_eq]; exact h

/-- Revocation survives any sequence of subsequent requests. -/
theorem run_preserves_revoked (reqs : List Request) (db : DB) (jti : String)
    (h : jti ∈ db.revoked) : jti ∈ (run db reqs).revoked := by
  induction reqs generalizing db with
  | nil => exact h
  | cons r rs ih => exact ih _ (step_preserves_revoked db r jti h)

/-- Claim C2: logging out an access token or a refresh token records its
jti in the revoked set, and after any sequence of further requests the
token-verification layer still flags that jti as blacklisted and rejects
a token bearing it. -/
theorem logout_revokes_jti (db : DB) (jti : String) (reqs : List Request) :
    is_jti_blacklisted (run (LogoutApi.post db jti).2 reqs) jti = true ∧
    is_jti_blacklisted (run (LogoutRefreshApi.post db jti).2 reqs) jti = true := by
  constructor
  · apply List.elem_iff.mpr
    apply run_preserves_revoked
    exact List.mem_append_right _ (List.mem_singleton.mpr rfl)
  · apply List.elem_iff.mpr
    apply run_preserves_revoked
    exact List.mem_append_right _ (List.mem_singleton.mpr rfl)
